import Mathlib

/-!
Shallow embedding of `jobgeneratordarkrp.py`, the interactive DarkRP job
generator of this repository.  Interactive standard input is modelled as a
list of scripted responses (`Input`), consumed one element per `input()`
call, and Python exceptions are modelled with `Except PyErr`.  Loops whose
iteration count is bounded by the remaining scripted input are written with
an explicit fuel argument instantiated with the length of the input script,
so every definition is structurally recursive and kernel-computable; each
loop iteration consumes at least one scripted response, so that fuel is
always sufficient.
-/

/-- Exceptions the Python program can raise while collecting input: `eof`
models `EOFError` when the scripted input is exhausted, `valueError` models
`ValueError` raised by `int(...)` on a malformed literal, and `typeError`
models `TypeError`/`AttributeError` on a `None` value (branches kept for
fidelity although they are unreachable whenever a default is supplied). -/
inductive PyErr where
  | eof
  | valueError
  | typeError
deriving DecidableEq

/-- A scripted sequence of user responses, one per `input()` call. -/
abbrev Input := List String

/-- Models Python `str.strip()`, applied after every `input()` call
(line 18 of the source): leading and trailing whitespace is removed. -/
def pyStrip (s : String) : String :=
  ⟨((s.data.dropWhile Char.isWhitespace).reverse.dropWhile Char.isWhitespace).reverse⟩

/-- Models Python `str.lower()` on the ASCII strings this program handles. -/
def pyLower (s : String) : String := ⟨s.data.map Char.toLower⟩

/-- Models Python `str.upper()` on the ASCII strings this program handles. -/
def pyUpper (s : String) : String := ⟨s.data.map Char.toUpper⟩

/-- The decimal digit character for a digit value below ten. -/
def digitChar (d : Nat) : Char :=
  match d with
  | 0 => '0'
  | 1 => '1'
  | 2 => '2'
  | 3 => '3'
  | 4 => '4'
  | 5 => '5'
  | 6 => '6'
  | 7 => '7'
  | 8 => '8'
  | _ => '9'

/-- The digit value of a decimal digit character, if it is one. -/
def digit? (c : Char) : Option Nat :=
  if '0' ≤ c ∧ c ≤ '9' then some (c.toNat - '0'.toNat) else none

/-- Accumulating decimal parser over a list of characters; fails on the
first character that is not a decimal digit. -/
def parseDigitsAux : List Char → Nat → Option Nat
  | [], acc => some acc
  | c :: cs, acc =>
    match digit? c with
    | some d => parseDigitsAux cs (acc * 10 + d)
    | none => none

/-- Parses a non-empty run of decimal digits; fails on an empty list. -/
def parseDigits : List Char → Option Nat
  | [] => none
  | cs => parseDigitsAux cs 0

/-- Models Python `int(...)` applied to an already-stripped string: an
optional single sign followed by at least one decimal digit; anything else
raises `ValueError`. -/
def pyInt (s : String) : Except PyErr Int :=
  match s.data with
  | [] => .error .valueError
  | c :: cs =>
    if c = '-' then
      match parseDigits cs with
      | some n => .ok (-(n : Int))
      | none => .error .valueError
    else if c = '+' then
      match parseDigits cs with
      | some n => .ok (n : Int)
      | none => .error .valueError
    else
      match parseDigits (c :: cs) with
      | some n => .ok (n : Int)
      | none => .error .valueError

/-- Models Python `int(value)` where `value` came from `get_user_input` and
may be `None`; `int(None)` raises `TypeError`. -/
def pyIntOfOpt : Option String → Except PyErr Int
  | some s => pyInt s
  | none => .error .typeError

/-- Extracts the string from an optional value at call sites where the
Python code immediately invokes a string method on it; on `None` such a
call would raise `AttributeError`, modelled as `typeError`. -/
def reqStr : Option String → Except PyErr String
  | some s => .ok s
  | none => .error .typeError

/-- Fuelled most-significant-first decimal digit expansion of a natural
number; the fuel only needs to exceed the number itself. -/
def natDigitsGo : Nat → Nat → List Char
  | 0, _ => []
  | f + 1, n =>
    if n < 10 then [digitChar n]
    else natDigitsGo f (n / 10) ++ [digitChar (n % 10)]

/-- Decimal digit expansion of a natural number. -/
def natToDigits (n : Nat) : List Char := natDigitsGo (n + 1) n

/-- Decimal string of a natural number. -/
def natStr (n : Nat) : String := ⟨natToDigits n⟩

/-- Models Python `str(...)` on an integer, as interpolated by f-strings. -/
def pyStr (n : Int) : String :=
  if n < 0 then "-" ++ natStr n.natAbs else natStr n.toNat

/-- Models `str(bool).lower()`: the lower-case token literal of a Boolean. -/
def pyBool (b : Bool) : String := if b then "true" else "false"

/-- Fuelled substring replacement over character lists, scanning left to
right; a match consumes the pattern and emits the replacement.  Only used
with non-empty patterns, as in the source. -/
def replaceGo (pat rep : List Char) : Nat → List Char → List Char
  | _, [] => []
  | 0, l => l
  | f + 1, c :: rest =>
    if pat.isPrefixOf (c :: rest) then
      rep ++ replaceGo pat rep f ((c :: rest).drop pat.length)
    else c :: replaceGo pat rep f rest

/-- Models Python `str.replace(pat, rep)` for the non-empty patterns used
by the source (newline escaping and space removal). -/
def pyReplace (s pat rep : String) : String :=
  ⟨replaceGo pat.data rep.data s.data.length s.data⟩

/-- Embedding of `DarkRPJobGenerator.get_user_input` (source lines 15-23):
reads a response, strips it, returns the default on blank input when a
default exists, re-prompts on blank required input without a default, and
returns `none` for blank optional input. -/
def get_user_input (default : Option String) (required : Bool) : Input → Except PyErr (Option String × Input)
  | [] => .error .eof
  | s :: rest =>
    let u := pyStrip s
    if u = "" then
      match default with
      | some d => .ok (some d, rest)
      | none =>
        if required then get_user_input none required rest
        else .ok (none, rest)
    else .ok (some u, rest)

/-- Loop body of `get_validated_int` (source lines 25-36): repeatedly reads
via `get_user_input` with the given default, parses with `int(...)`
catching `ValueError`, and returns the first in-range integer.  The fuel is
instantiated with the length of the remaining input. -/
def get_validated_int_loop (min_val max_val : Int) (default : String) : Nat → Input → Except PyErr (Int × Input)
  | 0, _ => .error .eof
  | f + 1, inp =>
    match get_user_input (some default) true inp with
    | .error e => .error e
    | .ok (v, rest) =>
      match pyIntOfOpt v with
      | .ok n =>
        if min_val ≤ n ∧ n ≤ max_val then .ok (n, rest)
        else get_validated_int_loop min_val max_val default f rest
      | .error .valueError => get_validated_int_loop min_val max_val default f rest
      | .error e => .error e

/-- Embedding of `DarkRPJobGenerator.get_validated_int` (source lines
25-36). -/
def get_validated_int (min_val max_val : Int) (default : String) (inp : Input) : Except PyErr (Int × Input) :=
  get_validated_int_loop min_val max_val default inp.length inp

/-- Embedding of `DarkRPJobGenerator.get_color_input` (source lines 38-45):
four validated channels in 0..255 with defaults 50, 50, 255, 255, rendered
as a constructor-style literal. -/
def get_color_input (inp : Input) : Except PyErr (String × Input) := do
  let (r, i1) ← get_validated_int 0 255 "50" inp
  let (g, i2) ← get_validated_int 0 255 "50" i1
  let (b, i3) ← get_validated_int 0 255 "255" i2
  let (a, i4) ← get_validated_int 0 255 "255" i3
  pure ("Color(" ++ pyStr r ++ ", " ++ pyStr g ++ ", " ++ pyStr b ++ ", " ++ pyStr a ++ ")", i4)

/-- Wraps an entry in double quotes, as `f'"{model}"'` does. -/
def quoted (s : String) : String := "\"" ++ s ++ "\""

/-- Final rendering of the collected model list (source lines 62-64): a
single entry is returned as a bare scalar, otherwise a brace-delimited
comma-separated list. -/
def render_models (models : List String) : String :=
  if models.length = 1 then models.headD ""
  else "\x7b" ++ String.intercalate ", " models ++ "\x7d"

/-- Loop of `DarkRPJobGenerator.get_models_input` (source lines 47-64):
reads an optional model path; blank input exits (substituting the built-in
default when nothing was collected); otherwise the quoted entry is appended
and the loop continues only when the continuation question answers `y`. -/
def models_loop : Nat → List String → Input → Except PyErr (String × Input)
  | 0, _, _ => .error .eof
  | f + 1, models, inp =>
    match get_user_input none false inp with
    | .error e => .error e
    | .ok (mOpt, rest) =>
      match mOpt with
      | none =>
        .ok (render_models (if models = [] then ["\"models/player/urban.mdl\""] else models), rest)
      | some m =>
        let models2 := models ++ [quoted m]
        match get_user_input (some "n") true rest with
        | .error e => .error e
        | .ok (none, _) => .error .typeError
        | .ok (some a, rest2) =>
          if pyLower a ≠ "y" then .ok (render_models models2, rest2)
          else models_loop f models2 rest2

/-- Embedding of `DarkRPJobGenerator.get_models_input` (source lines
47-64). -/
def get_models_input (inp : Input) : Except PyErr (String × Input) :=
  models_loop inp.length [] inp

/-- Loop of `DarkRPJobGenerator.get_weapons_input` (source lines 66-81):
same collection pattern as the model loop, but every exit renders the
brace-delimited comma-separated list. -/
def weapons_loop : Nat → List String → Input → Except PyErr (String × Input)
  | 0, _, _ => .error .eof
  | f + 1, weapons, inp =>
    match get_user_input none false inp with
    | .error e => .error e
    | .ok (wOpt, rest) =>
      match wOpt with
      | none =>
        let ws := if weapons = [] then ["\"weapon_pistol\""] else weapons
        .ok ("\x7b" ++ String.intercalate ", " ws ++ "\x7d", rest)
      | some w =>
        let weapons2 := weapons ++ [quoted w]
        match get_user_input (some "n") true rest with
        | .error e => .error e
        | .ok (none, _) => .error .typeError
        | .ok (some a, rest2) =>
          if pyLower a ≠ "y" then .ok ("\x7b" ++ String.intercalate ", " weapons2 ++ "\x7d", rest2)
          else weapons_loop f weapons2 rest2

/-- Embedding of `DarkRPJobGenerator.get_weapons_input` (source lines
66-81). -/
def get_weapons_input (inp : Input) : Except PyErr (String × Input) :=
  weapons_loop inp.length [] inp

/-- The spawn-settings record collected by `get_spawn_settings`. -/
structure SpawnSettings where
  health : Int
  max_health : Int
  armor : Int
  max_armor : Int
  walk_speed : Int
  run_speed : Int
  jump_power : Int
deriving DecidableEq

/-- Embedding of `DarkRPJobGenerator.get_spawn_settings` (source lines
83-98): seven prompts parsed directly with `int(...)`; the max-health and
max-armor defaults are the string renderings of the values just entered,
and `max_armor` falls back to `armor` when the returned string is falsy. -/
def get_spawn_settings (inp : Input) : Except PyErr (SpawnSettings × Input) :=
  match get_user_input (some "100") true inp with
  | .error e => .error e
  | .ok (hOpt, i1) =>
  match pyIntOfOpt hOpt with
  | .error e => .error e
  | .ok health =>
  match get_user_input (some (pyStr health)) true i1 with
  | .error e => .error e
  | .ok (mhOpt, i2) =>
  match pyIntOfOpt mhOpt with
  | .error e => .error e
  | .ok max_health =>
  match get_user_input (some "0") true i2 with
  | .error e => .error e
  | .ok (aOpt, i3) =>
  match pyIntOfOpt aOpt with
  | .error e => .error e
  | .ok armor =>
  match get_user_input (some (pyStr armor)) true i3 with
  | .error e => .error e
  | .ok (maOpt, i4) =>
  match (match maOpt with
         | some s => if s ≠ "" then pyInt s else .ok armor
         | none => .ok armor : Except PyErr Int) with
  | .error e => .error e
  | .ok max_armor =>
  match get_user_input (some "200") true i4 with
  | .error e => .error e
  | .ok (wOpt, i5) =>
  match pyIntOfOpt wOpt with
  | .error e => .error e
  | .ok walk_speed =>
  match get_user_input (some "400") true i5 with
  | .error e => .error e
  | .ok (rOpt, i6) =>
  match pyIntOfOpt rOpt with
  | .error e => .error e
  | .ok run_speed =>
  match get_user_input (some "200") true i6 with
  | .error e => .error e
  | .ok (jOpt, i7) =>
  match pyIntOfOpt jOpt with
  | .error e => .error e
  | .ok jump_power =>
    .ok (⟨health, max_health, armor, max_armor, walk_speed, run_speed, jump_power⟩, i7)

/-- One generated job record, as appended to `self.jobs` (source lines
159-163). -/
structure Job where
  team_name : String
  job_name : String
  code : String
deriving DecidableEq

/-- The f-string template of `create_job` (source lines 135-157), with each
interpolated value as a parameter. -/
def job_template (team_name job_name color models description weapons command : String)
    (max_players salary : Int) (vote_required has_license can_demote : Bool)
    (s : SpawnSettings) : String :=
  team_name ++ " = DarkRP.createJob(\"" ++ job_name ++ "\", \x7b\n    color = " ++ color
    ++ ",\n    model = " ++ models
    ++ ",\n    description = [[" ++ description
    ++ "]],\n    weapons = " ++ weapons
    ++ ",\n    command = \"" ++ command
    ++ "\",\n    max = " ++ pyStr max_players
    ++ ",\n    salary = " ++ pyStr salary
    ++ ",\n    admin = 0,\n    vote = " ++ pyBool vote_required
    ++ ",\n    hasLicense = " ++ pyBool has_license
    ++ ",\n    candemote = " ++ pyBool can_demote
    ++ ",\n\n    PlayerSpawn = function(ply)\n        ply:SetHealth(" ++ pyStr s.health
    ++ ")\n        ply:SetMaxHealth(" ++ pyStr s.max_health
    ++ ")\n        ply:SetArmor(" ++ pyStr s.armor
    ++ ")\n        ply:SetMaxArmor(" ++ pyStr s.max_armor
    ++ ")\n        ply:SetWalkSpeed(" ++ pyStr s.walk_speed
    ++ ")\n        ply:SetRunSpeed(" ++ pyStr s.run_speed
    ++ ")\n        ply:SetJumpPower(" ++ pyStr s.jump_power
    ++ ")\n    end\n\x7d)"

/-- Embedding of `DarkRPJobGenerator.create_job` (source lines 100-165):
collects every field in source order, renders the template, and appends the
record to the session list. -/
def create_job (jobs : List Job) (inp : Input) : Except PyErr (String × List Job × Input) := do
  let (tOpt, i1) ← get_user_input (some "TEAM_CUSTOM") true inp
  let team_name := pyUpper (← reqStr tOpt)
  let (jOpt, i2) ← get_user_input (some "Custom Job") true i1
  let job_name ← reqStr jOpt
  let (color, i3) ← get_color_input i2
  let (dOpt, i4) ← get_user_input (some "A custom DarkRP job") true i3
  let description := pyReplace (← reqStr dOpt) "\n" "\\n"
  let (models, i5) ← get_models_input i4
  let (weapons, i6) ← get_weapons_input i5
  let (cOpt, i7) ← get_user_input (some (pyReplace (pyLower job_name) " " "")) true i6
  let command ← reqStr cOpt
  let (mpOpt, i8) ← get_user_input (some "2") true i7
  let max_players ← pyIntOfOpt mpOpt
  let (sOpt, i9) ← get_user_input (some "50") true i8
  let salary ← pyIntOfOpt sOpt
  let (lOpt, i10) ← get_user_input (some "y") true i9
  let has_license := pyLower (← reqStr lOpt) == "y"
  let (vOpt, i11) ← get_user_input (some "n") true i10
  let vote_required := pyLower (← reqStr vOpt) == "y"
  let (cdOpt, i12) ← get_user_input (some "n") true i11
  let can_demote := pyLower (← reqStr cdOpt) == "y"
  let (spawn, i13) ← get_spawn_settings i12
  let code := job_template team_name job_name color models description weapons command
    max_players salary vote_required has_license can_demote spawn
  pure (code, jobs ++ [⟨team_name, job_name, code⟩], i13)

/-- A wall-clock timestamp as produced by `datetime.now()`, to second
precision. -/
structure DateTime where
  year : Nat
  month : Nat
  day : Nat
  hour : Nat
  minute : Nat
  second : Nat
deriving DecidableEq

/-- Two-digit zero-padded field, as `strftime` renders `%m`, `%d`, `%H`,
`%M` and `%S`. -/
def pad2 (n : Nat) : String := if n < 10 then "0" ++ natStr n else natStr n

/-- Four-digit zero-padded field, as `strftime` renders `%Y`. -/
def pad4 (n : Nat) : String :=
  if n < 10 then "000" ++ natStr n
  else if n < 100 then "00" ++ natStr n
  else if n < 1000 then "0" ++ natStr n
  else natStr n

/-- The `strftime` format used for the output filename,
`%Y%m%d_%H%M%S` (source line 173). -/
def stampFile (t : DateTime) : String :=
  pad4 t.year ++ pad2 t.month ++ pad2 t.day ++ "_" ++ pad2 t.hour ++ pad2 t.minute ++ pad2 t.second

/-- The `strftime` format used in the file header,
`%d.%m.%Y %H:%M:%S` (source line 177). -/
def stampHuman (t : DateTime) : String :=
  pad2 t.day ++ "." ++ pad2 t.month ++ "." ++ pad4 t.year ++ " "
    ++ pad2 t.hour ++ ":" ++ pad2 t.minute ++ ":" ++ pad2 t.second

/-- The body written by the `for job in self.jobs` loop of `save_jobs`
(source lines 179-181): each rendered code block followed by a blank-line
separator. -/
def writeJobs : List Job → String
  | [] => ""
  | j :: js => j.code ++ "\n\n" ++ writeJobs js

/-- Embedding of `DarkRPJobGenerator.save_jobs` (source lines 167-183).
The method calls `datetime.now()` twice, once for the filename and once for
the header, so the two timestamps are separate parameters.  The result is
the session list after the call (the method never mutates it), the file
written as an optional pair of filename and content, and the printed
notice. -/
def save_jobs (jobs : List Job) (t_file t_header : DateTime) : List Job × Option (String × String) × String :=
  if jobs = [] then (jobs, none, "No jobs to save!")
  else
    let filename := "darkrp_jobs_" ++ stampFile t_file ++ ".lua"
    (jobs,
     some (filename,
       "-- DarkRP Jobs generated with Python Script\n"
         ++ ("-- Created on: " ++ stampHuman t_header ++ "\n\n")
         ++ writeJobs jobs),
     "\n✅ Jobs saved to: " ++ filename)

/-- Input script that enters each listed string as one collection entry,
answers `y` to every continuation question, and finally submits a blank
entry; used to state the collection claims end to end. -/
def mkScript : List String → Input
  | [] => [""]
  | e :: es => e :: "y" :: mkScript es

theorem gui_default_cons (d : String) (r : Bool) (s : String) (rest : Input) :
    get_user_input (some d) r (s :: rest)
      = .ok (some (if pyStrip s = "" then d else pyStrip s), rest) := by
  by_cases h : pyStrip s = "" <;> simp [get_user_input, h]

theorem gui_opt_cons (s : String) (rest : Input) :
    get_user_input none false (s :: rest)
      = .ok (if pyStrip s = "" then none else some (pyStrip s), rest) := by
  by_cases h : pyStrip s = "" <;> simp [get_user_input, h]

theorem gui_error_eof : ∀ (inp : Input) (d : Option String) (r : Bool) (e : PyErr),
    get_user_input d r inp = .error e → e = .eof := by
  intro inp
  induction inp with
  | nil =>
    intro d r e h
    simp only [get_user_input] at h
    injection h with h1
    exact h1.symm
  | cons s rest ih =>
    intro d r e h
    cases d with
    | some dv =>
      rw [gui_default_cons] at h
      simp at h
    | none =>
      simp only [get_user_input] at h
      split at h
      · split at h
        · exact ih none r e h
        · simp at h
      · simp at h

theorem gui_some_of_default (d : String) (r : Bool) (inp : Input) (v : Option String)
    (rest : Input) (h : get_user_input (some d) r inp = .ok (v, rest)) : ∃ u, v = some u := by
  cases inp with
  | nil => simp [get_user_input] at h
  | cons s tl =>
    rw [gui_default_cons] at h
    injection h with h1
    injection h1 with h2 h3
    exact ⟨_, h2.symm⟩

theorem pyInt_error_eq (s : String) (e : PyErr) (h : pyInt s = .error e) : e = .valueError := by
  unfold pyInt at h
  split at h
  · injection h with h1
    exact h1.symm
  · split at h
    · split at h
      · simp at h
      · injection h with h1
        exact h1.symm
    · split at h
      · split at h
        · simp at h
        · injection h with h1
          exact h1.symm
      · split at h
        · simp at h
        · injection h with h1
          exact h1.symm

theorem digitChar_not_sign (d : Nat) : digitChar d ≠ '-' ∧ digitChar d ≠ '+' := by
  unfold digitChar
  split <;> exact ⟨by decide, by decide⟩

theorem digit?_digitChar (d : Nat) (h : d < 10) : digit? (digitChar d) = some d := by
  interval_cases d <;> rfl

theorem natDigitsGo_stable : ∀ (f g n : Nat), n < f → n < g → natDigitsGo f n = natDigitsGo g n := by
  intro f
  induction f with
  | zero => intro g n h; omega
  | succ f ih =>
    intro g n hf hg
    cases g with
    | zero => omega
    | succ g =>
      simp only [natDigitsGo]
      by_cases h10 : n < 10
      · simp [h10]
      · simp only [if_neg h10]
        rw [ih g (n / 10) (by omega) (by omega)]

theorem natToDigits_small (n : Nat) (h : n < 10) : natToDigits n = [digitChar n] := by
  simp [natToDigits, natDigitsGo, h]

theorem natToDigits_step (n : Nat) (h : 10 ≤ n) :
    natToDigits n = natToDigits (n / 10) ++ [digitChar (n % 10)] := by
  have h1 : natToDigits n
      = if n < 10 then [digitChar n] else natDigitsGo n (n / 10) ++ [digitChar (n % 10)] := rfl
  rw [h1, if_neg (by omega), natDigitsGo_stable n (n / 10 + 1) (n / 10) (by omega) (by omega)]
  rfl

theorem natToDigits_ne_nil (n : Nat) : natToDigits n ≠ [] := by
  by_cases h : n < 10
  · rw [natToDigits_small n h]; simp
  · rw [natToDigits_step n (by omega)]; simp

theorem parseDigitsAux_append (xs ys : List Char) (acc : Nat) :
    parseDigitsAux (xs ++ ys) acc
      = match parseDigitsAux xs acc with
        | some m => parseDigitsAux ys m
        | none => none := by
  induction xs generalizing acc with
  | nil => simp [parseDigitsAux]
  | cons c cs ih =>
    simp only [List.cons_append, parseDigitsAux]
    cases hd : digit? c with
    | some d => simp [ih]
    | none => simp

theorem parse_natToDigits : ∀ (n : Nat), ∀ (acc : Nat),
    parseDigitsAux (natToDigits n) acc = some (acc * 10 ^ (natToDigits n).length + n) := by
  intro n
  induction n using Nat.strong_induction_on with
  | _ n ih =>
    intro acc
    by_cases h : n < 10
    · rw [natToDigits_small n h]
      simp [parseDigitsAux, digit?_digitChar n h]
    · rw [natToDigits_step n (by omega)]
      rw [parseDigitsAux_append]
      rw [ih (n / 10) (by omega) acc]
      simp only [parseDigitsAux, digit?_digitChar (n % 10) (by omega), List.length_append,
        List.length_singleton]
      congr 1
      have hdm : n / 10 * 10 + n % 10 = n := by omega
      calc (acc * 10 ^ (natToDigits (n / 10)).length + n / 10) * 10 + n % 10
          = acc * (10 ^ (natToDigits (n / 10)).length * 10) + (n / 10 * 10 + n % 10) := by ring
        _ = acc * 10 ^ ((natToDigits (n / 10)).length + 1) + n := by rw [pow_succ, hdm]

theorem parseDigits_natToDigits (n : Nat) : parseDigits (natToDigits n) = some n := by
  have h0 := parse_natToDigits n 0
  cases hd : natToDigits n with
  | nil => exact absurd hd (natToDigits_ne_nil n)
  | cons c cs =>
    rw [hd] at h0
    simp only [Nat.zero_mul, Nat.zero_add] at h0
    simpa [parseDigits] using h0

theorem natToDigits_head (n : Nat) : ∃ d cs, natToDigits n = digitChar d :: cs ∧ d < 10 := by
  induction n using Nat.strong_induction_on with
  | _ n ih =>
    by_cases h : n < 10
    · exact ⟨n, [], natToDigits_small n h, h⟩
    · obtain ⟨d, cs, hdc, hd⟩ := ih (n / 10) (by omega)
      refine ⟨d, cs ++ [digitChar (n % 10)], ?_, hd⟩
      rw [natToDigits_step n (by omega), hdc]
      rfl

theorem natStr_ne_empty (n : Nat) : natStr n ≠ "" := by
  intro h
  apply natToDigits_ne_nil n
  have h2 := congrArg String.data h
  simpa [natStr] using h2

theorem pyStr_ne_empty (n : Int) : pyStr n ≠ "" := by
  unfold pyStr
  split
  · intro h
    have h2 := congrArg String.data h
    simp [String.data_append, natStr] at h2
  · exact natStr_ne_empty _

theorem pyInt_mk_cons (c : Char) (cs : List Char) :
    pyInt ⟨c :: cs⟩
      = if c = '-' then
          match parseDigits cs with
          | some n => .ok (-(n : Int))
          | none => .error .valueError
        else if c = '+' then
          match parseDigits cs with
          | some n => .ok (n : Int)
          | none => .error .valueError
        else
          match parseDigits (c :: cs) with
          | some n => .ok (n : Int)
          | none => .error .valueError := rfl

theorem pyInt_pyStr (n : Int) : pyInt (pyStr n) = .ok n := by
  unfold pyStr
  split
  case isTrue h =>
    have hmk : ("-" ++ natStr n.natAbs) = (⟨'-' :: natToDigits n.natAbs⟩ : String) := rfl
    rw [hmk, pyInt_mk_cons]
    rw [if_pos rfl, parseDigits_natToDigits]
    show Except.ok (-(n.natAbs : Int)) = Except.ok n
    congr 1
    omega
  case isFalse h =>
    obtain ⟨d, cs, hdc, hd⟩ := natToDigits_head n.toNat
    have hmk : natStr n.toNat = (⟨digitChar d :: cs⟩ : String) := by
      rw [natStr, hdc]
    rw [hmk, pyInt_mk_cons]
    rw [if_neg (digitChar_not_sign d).1, if_neg (digitChar_not_sign d).2]
    rw [← hdc, parseDigits_natToDigits]
    show Except.ok ((n.toNat : Int)) = Except.ok n
    congr 1
    omega

theorem gvi_loop_range : ∀ (f : Nat) (mn mx : Int) (d : String) (inp : Input) (n : Int) (rest : Input),
    get_validated_int_loop mn mx d f inp = .ok (n, rest) → mn ≤ n ∧ n ≤ mx := by
  intro f
  induction f with
  | zero =>
    intro mn mx d inp n rest h
    simp [get_validated_int_loop] at h
  | succ f ih =>
    intro mn mx d inp n rest h
    simp only [get_validated_int_loop] at h
    split at h
    · simp at h
    · split at h
      · split at h
        · injection h with h1
          injection h1 with h2 h3
          subst h2
          assumption
        · exact ih mn mx d _ n rest h
      · exact ih mn mx d _ n rest h
      · simp at h

theorem gvi_loop_error : ∀ (f : Nat) (mn mx : Int) (d : String) (inp : Input) (e : PyErr),
    get_validated_int_loop mn mx d f inp = .error e → e = .eof := by
  intro f
  induction f with
  | zero =>
    intro mn mx d inp e h
    simp only [get_validated_int_loop] at h
    injection h with h1
    exact h1.symm
  | succ f ih =>
    intro mn mx d inp e h
    simp only [get_validated_int_loop] at h
    split at h
    next e2 heq =>
      injection h with h1
      subst h1
      exact gui_error_eof inp (some d) true e2 heq
    next v rest1 heq =>
      obtain ⟨u, hu⟩ := gui_some_of_default d true inp v rest1 heq
      subst hu
      split at h
      · split at h
        · simp at h
        · exact ih mn mx d _ e h
      · exact ih mn mx d _ e h
      next n2 e2 hne heq2 =>
        injection h with h1
        subst h1
        exact absurd (pyInt_error_eq u e2 heq2) hne
theorem models_loop_blank (f : Nat) (acc : List String) (s : String) (rest : Input)
    (h : pyStrip s = "") :
    models_loop (f + 1) acc (s :: rest)
      = .ok (render_models (if acc = [] then ["\"models/player/urban.mdl\""] else acc), rest) := by
  simp [models_loop, gui_opt_cons, h]

theorem models_loop_decline (f : Nat) (acc : List String) (m a : String) (rest : Input)
    (hm : pyStrip m ≠ "") (ha : pyLower (if pyStrip a = "" then "n" else pyStrip a) ≠ "y") :
    models_loop (f + 1) acc (m :: a :: rest)
      = .ok (render_models (acc ++ [quoted (pyStrip m)]), rest) := by
  simp only [models_loop, gui_opt_cons, if_neg hm, gui_default_cons]
  simp [ha]

theorem models_loop_continue (f : Nat) (acc : List String) (m a : String) (rest : Input)
    (hm : pyStrip m ≠ "") (ha : pyLower (if pyStrip a = "" then "n" else pyStrip a) = "y") :
    models_loop (f + 1) acc (m :: a :: rest)
      = models_loop f (acc ++ [quoted (pyStrip m)]) rest := by
  simp only [models_loop, gui_opt_cons, if_neg hm, gui_default_cons]
  simp [ha]

theorem weapons_loop_blank (f : Nat) (acc : List String) (s : String) (rest : Input)
    (h : pyStrip s = "") :
    weapons_loop (f + 1) acc (s :: rest)
      = .ok ("\x7b" ++ String.intercalate ", "
          (if acc = [] then ["\"weapon_pistol\""] else acc) ++ "\x7d", rest) := by
  simp [weapons_loop, gui_opt_cons, h]

theorem weapons_loop_decline (f : Nat) (acc : List String) (m a : String) (rest : Input)
    (hm : pyStrip m ≠ "") (ha : pyLower (if pyStrip a = "" then "n" else pyStrip a) ≠ "y") :
    weapons_loop (f + 1) acc (m :: a :: rest)
      = .ok ("\x7b" ++ String.intercalate ", " (acc ++ [quoted (pyStrip m)]) ++ "\x7d", rest) := by
  simp only [weapons_loop, gui_opt_cons, if_neg hm, gui_default_cons]
  simp [ha]

theorem weapons_loop_continue (f : Nat) (acc : List String) (m a : String) (rest : Input)
    (hm : pyStrip m ≠ "") (ha : pyLower (if pyStrip a = "" then "n" else pyStrip a) = "y") :
    weapons_loop (f + 1) acc (m :: a :: rest)
      = weapons_loop f (acc ++ [quoted (pyStrip m)]) rest := by
  simp only [weapons_loop, gui_opt_cons, if_neg hm, gui_default_cons]
  simp [ha]

theorem models_loop_mkScript : ∀ (es : List String) (f : Nat) (acc : List String),
    (mkScript es).length ≤ f → (∀ e ∈ es, pyStrip e ≠ "") →
    models_loop f acc (mkScript es)
      = .ok (render_models (if acc ++ es.map (fun e => quoted (pyStrip e)) = []
                            then ["\"models/player/urban.mdl\""]
                            else acc ++ es.map (fun e => quoted (pyStrip e))), []) := by
  intro es
  induction es with
  | nil =>
    intro f acc hf _
    cases f with
    | zero => simp [mkScript] at hf
    | succ f =>
      rw [show mkScript [] = [""] from rfl]
      rw [models_loop_blank f acc "" [] (by rfl)]
      simp
  | cons e es ih =>
    intro f acc hf hwf
    cases f with
    | zero => simp [mkScript] at hf
    | succ f =>
      rw [show mkScript (e :: es) = e :: "y" :: mkScript es from rfl]
      rw [models_loop_continue f acc e "y" (mkScript es) (hwf e (by simp)) (by rfl)]
      rw [ih f (acc ++ [quoted (pyStrip e)])
        (by simp [mkScript] at hf ⊢; omega) (fun x hx => hwf x (by simp [hx]))]
      simp [List.append_assoc]

theorem weapons_loop_mkScript : ∀ (es : List String) (f : Nat) (acc : List String),
    (mkScript es).length ≤ f → (∀ e ∈ es, pyStrip e ≠ "") →
    weapons_loop f acc (mkScript es)
      = .ok ("\x7b" ++ String.intercalate ", "
          (if acc ++ es.map (fun e => quoted (pyStrip e)) = []
           then ["\"weapon_pistol\""]
           else acc ++ es.map (fun e => quoted (pyStrip e))) ++ "\x7d", []) := by
  intro es
  induction es with
  | nil =>
    intro f acc hf _
    cases f with
    | zero => simp [mkScript] at hf
    | succ f =>
      rw [show mkScript [] = [""] from rfl]
      rw [weapons_loop_blank f acc "" [] (by rfl)]
      simp
  | cons e es ih =>
    intro f acc hf hwf
    cases f with
    | zero => simp [mkScript] at hf
    | succ f =>
      rw [show mkScript (e :: es) = e :: "y" :: mkScript es from rfl]
      rw [weapons_loop_continue f acc e "y" (mkScript es) (hwf e (by simp)) (by rfl)]
      rw [ih f (acc ++ [quoted (pyStrip e)])
        (by simp [mkScript] at hf ⊢; omega) (fun x hx => hwf x (by simp [hx]))]
      simp [List.append_assoc]

/-- Claim C1, amended.  The re-prompt guarantee holds only for the prompts
that go through `get_validated_int` (the four color channels): such a
prompt only ever returns an integer inside [min, max], the only error it
can propagate is end-of-input (never `ValueError`), and a non-blank
response that is non-numeric or out of range is consumed and rejected,
leaving the loop to re-prompt on the remaining input.  The max-players,
salary and spawn-setting prompts instead parse the response directly with
`int(...)`, so a non-numeric response there raises `ValueError` to the
caller, witnessed by a `create_job` run whose salary response is `abc`. -/
theorem claim_C1_amended :
    (∀ (mn mx : Int) (d : String) (inp : Input) (n : Int) (rest : Input),
        get_validated_int mn mx d inp = .ok (n, rest) → mn ≤ n ∧ n ≤ mx)
  ∧ (∀ (mn mx : Int) (d : String) (inp : Input) (e : PyErr),
        get_validated_int mn mx d inp = .error e → e = .eof)
  ∧ (∀ (mn mx : Int) (d s : String) (rest : Input), pyStrip s ≠ "" →
        (∀ n : Int, pyInt (pyStrip s) = .ok n → ¬(mn ≤ n ∧ n ≤ mx)) →
        get_validated_int mn mx d (s :: rest) = get_validated_int mn mx d rest)
  ∧ create_job [] ["", "", "", "", "", "", "", "", "", "", "2", "abc"] = .error .valueError := by
  refine ⟨?_, ?_, ?_, ?_⟩
  · intro mn mx d inp n rest h
    exact gvi_loop_range inp.length mn mx d inp n rest h
  · intro mn mx d inp e h
    exact gvi_loop_error inp.length mn mx d inp e h
  · intro mn mx d s rest hs hbad
    show get_validated_int_loop mn mx d (rest.length + 1) (s :: rest) = _
    simp only [get_validated_int_loop, gui_default_cons, if_neg hs, pyIntOfOpt]
    cases hp : pyInt (pyStrip s) with
    | ok n =>
      show (if mn ≤ n ∧ n ≤ mx then Except.ok (n, rest)
            else get_validated_int_loop mn mx d rest.length rest)
          = get_validated_int mn mx d rest
      rw [if_neg (hbad n hp)]
      rfl
    | error e =>
      have he : e = .valueError := pyInt_error_eq _ e hp
      subst he
      rfl
  · rfl

/-- Witness for claim C1: a `999` response to a 0..255 validated prompt is
consumed and rejected, leaving the loop to run on the rest of the input. -/
theorem claim_C1_witness :
    get_validated_int 0 255 "50" ["999", "7"] = get_validated_int 0 255 "50" ["7"] := by
  have h := claim_C1_amended.2.2.1 0 255 "50" "999" ["7"] (by decide)
    (by
      intro n hn
      rw [show pyStrip "999" = "999" from rfl] at hn
      rw [show pyInt "999" = Except.ok (999 : Int) from rfl] at hn
      injection hn with h1
      subst h1
      decide)
  exact h

/-- Counterexample to claim C1 as stated: in a `create_job` run where every
earlier prompt takes its default, answering `abc` to the Max Players prompt
does not re-prompt; `int("abc")` raises `ValueError`, which propagates to
the caller. -/
theorem claim_C1_counterexample :
    create_job [] ["", "", "", "", "", "", "", "", "", "", "abc"] = .error .valueError := rfl

/-- Claim C2, amended.  The model-collection loop (and the weapon loop,
same pattern) terminates when the user submits blank input for the
path/identifier prompt, and also terminates after a non-blank entry when
the answer to the follow-up continuation question (default `n`) is
anything whose lower-casing differs from `y`; it prompts for a further
entry only when that answer lower-cases to `y`. -/
theorem claim_C2_amended :
    (∀ (f : Nat) (acc : List String) (s : String) (rest : Input), pyStrip s = "" →
        models_loop (f + 1) acc (s :: rest)
          = .ok (render_models (if acc = [] then ["\"models/player/urban.mdl\""] else acc), rest))
  ∧ (∀ (f : Nat) (acc : List String) (m a : String) (rest : Input), pyStrip m ≠ "" →
        pyLower (if pyStrip a = "" then "n" else pyStrip a) ≠ "y" →
        models_loop (f + 1) acc (m :: a :: rest)
          = .ok (render_models (acc ++ [quoted (pyStrip m)]), rest))
  ∧ (∀ (f : Nat) (acc : List String) (m a : String) (rest : Input), pyStrip m ≠ "" →
        pyLower (if pyStrip a = "" then "n" else pyStrip a) = "y" →
        models_loop (f + 1) acc (m :: a :: rest) = models_loop f (acc ++ [quoted (pyStrip m)]) rest)
  ∧ (∀ (f : Nat) (acc : List String) (s : String) (rest : Input), pyStrip s = "" →
        weapons_loop (f + 1) acc (s :: rest)
          = .ok ("\x7b" ++ String.intercalate ", "
              (if acc = [] then ["\"weapon_pistol\""] else acc) ++ "\x7d", rest))
  ∧ (∀ (f : Nat) (acc : List String) (m a : String) (rest : Input), pyStrip m ≠ "" →
        pyLower (if pyStrip a = "" then "n" else pyStrip a) ≠ "y" →
        weapons_loop (f + 1) acc (m :: a :: rest)
          = .ok ("\x7b" ++ String.intercalate ", " (acc ++ [quoted (pyStrip m)]) ++ "\x7d", rest))
  ∧ (∀ (f : Nat) (acc : List String) (m a : String) (rest : Input), pyStrip m ≠ "" →
        pyLower (if pyStrip a = "" then "n" else pyStrip a) = "y" →
        weapons_loop (f + 1) acc (m :: a :: rest) = weapons_loop f (acc ++ [quoted (pyStrip m)]) rest) :=
  ⟨models_loop_blank, models_loop_decline, models_loop_continue,
   weapons_loop_blank, weapons_loop_decline, weapons_loop_continue⟩

/-- Witness for claim C2: one entered model followed by a blank answer to
the continuation question (default `n`) ends the loop with that single
entry. -/
theorem claim_C2_witness :
    models_loop 1 [] ["m1", ""] = .ok (render_models [quoted (pyStrip "m1")], []) :=
  claim_C2_amended.2.1 0 [] "m1" "" [] (by decide) (by decide)

/-- Counterexample to claim C2 as stated: the run `["m1", "n"]` contains no
blank response at all, yet the model-collection loop terminates after the
single entry because the continuation question was not answered `y`. -/
theorem claim_C2_counterexample :
    get_models_input ["m1", "n"] = .ok ("\"m1\"", []) ∧ pyStrip "m1" ≠ "" ∧ pyStrip "n" ≠ "" :=
  ⟨rfl, by decide, by decide⟩

/-- Claim C3: model list rendering is a trichotomy on the number of entered
models — zero entries give exactly the built-in default quoted literal, one
entry gives that entry as a quoted scalar without braces, and two or more
entries give the brace-delimited comma-separated quoted list in entry
order. -/
theorem claim_C3 (es : List String) (h : ∀ e ∈ es, pyStrip e ≠ "") :
    get_models_input (mkScript es)
      = .ok (match es with
             | [] => "\"models/player/urban.mdl\""
             | [e] => quoted (pyStrip e)
             | _ => "\x7b" ++ String.intercalate ", " (es.map fun e => quoted (pyStrip e)) ++ "\x7d",
             []) := by
  have hm := models_loop_mkScript es (mkScript es).length [] (le_refl _) h
  rw [get_models_input, hm]
  cases es with
  | nil => rfl
  | cons e1 tl =>
    cases tl with
    | nil => rfl
    | cons e2 tl2 =>
      simp only [List.map_cons, List.nil_append]
      rw [if_neg (by simp)]
      rw [render_models, if_neg (by simp)]

/-- Witness for claim C3: two entered models render as a brace list in
entry order. -/
theorem claim_C3_witness :
    get_models_input (mkScript ["a", "b"])
      = .ok ("\x7b" ++ String.intercalate ", " (["a", "b"].map fun e => quoted (pyStrip e)) ++ "\x7d",
             []) :=
  claim_C3 ["a", "b"] (by decide)

/-- Claim C4: weapon list rendering is always brace-delimited, even for a
single entry, and the built-in one-item default list is used exactly when
zero weapons were entered. -/
theorem claim_C4 (es : List String) (h : ∀ e ∈ es, pyStrip e ≠ "") :
    get_weapons_input (mkScript es)
      = .ok ("\x7b" ++ String.intercalate ", "
          (if es = [] then ["\"weapon_pistol\""] else es.map fun e => quoted (pyStrip e)) ++ "\x7d",
          []) := by
  have hm := weapons_loop_mkScript es (mkScript es).length [] (le_refl _) h
  rw [get_weapons_input, hm]
  cases es with
  | nil => rfl
  | cons e tl =>
    simp only [List.map_cons, List.nil_append]
    rw [if_neg (by simp), if_neg (by simp)]

/-- Witness for claim C4: a single entered weapon still renders as a
brace-delimited one-element list, not a scalar. -/
theorem claim_C4_witness :
    get_weapons_input (mkScript ["w1"])
      = .ok ("\x7b" ++ String.intercalate ", "
          (if (["w1"] : List String) = [] then ["\"weapon_pistol\""]
           else ["w1"].map fun e => quoted (pyStrip e)) ++ "\x7d", []) :=
  claim_C4 ["w1"] (by decide)

/-- Claim C5: in a successful spawn-settings collection, the recorded
maxArmor equals the recorded armor whenever the max-armor response is
blank, and otherwise equals the integer parsed from the explicit response
(including an explicit `0`), independent of the armor value; the seven
prompts consume exactly the seven responses. -/
theorem claim_C5 (hh mh a ma w r j : String) (rest rest2 : Input) (sp : SpawnSettings)
    (h : get_spawn_settings (hh :: mh :: a :: ma :: w :: r :: j :: rest) = .ok (sp, rest2)) :
    (pyStrip ma = "" → sp.max_armor = sp.armor)
  ∧ (pyStrip ma ≠ "" → pyInt (pyStrip ma) = .ok sp.max_armor)
  ∧ rest2 = rest := by
  simp only [get_spawn_settings, gui_default_cons, pyIntOfOpt] at h
  by_cases hma : pyStrip ma = ""
  · simp only [hma, if_pos rfl, ne_eq, pyStr_ne_empty, not_false_iff, if_true, pyInt_pyStr] at h
    split at h
    · simp at h
    · split at h
      · simp at h
      · split at h
        · simp at h
        · split at h
          · simp at h
          · split at h
            · simp at h
            · split at h
              · simp at h
              · injection h with h1
                injection h1 with h2 h3
                subst h2
                subst h3
                exact ⟨fun _ => rfl, fun hc => absurd hma hc, rfl⟩
  · simp only [hma, if_neg hma, if_false, ne_eq, not_false_iff, if_true] at h
    split at h
    · simp at h
    · split at h
      · simp at h
      · split at h
        · simp at h
        · split at h
          · simp at h
          · rename_i mav hmaeq
            split at h
            · simp at h
            · split at h
              · simp at h
              · split at h
                · simp at h
                · injection h with h1
                  injection h1 with h2 h3
                  subst h2
                  subst h3
                  exact ⟨fun hc => absurd hc hma, fun _ => hmaeq, rfl⟩

/-- Witness for claim C5: with all seven spawn responses blank, armor is 0
and maxArmor copies it. -/
theorem claim_C5_witness :
    (pyStrip "" = "" → (0 : Int) = 0)
  ∧ (pyStrip "" ≠ "" → pyInt (pyStrip "") = .ok 0)
  ∧ ([] : Input) = [] :=
  claim_C5 "" "" "" "" "" "" "" [] [] ⟨100, 100, 0, 0, 200, 400, 200⟩ rfl

set_option maxRecDepth 10000 in
/-- Claim C6: the end-to-end run with team `TEAM_TEST`, job `Tester`,
default color, one model `models/player/urban.mdl`, one weapon
`weapon_pistol`, default description and command, max players 2, salary 50,
license yes, vote no, demote no, and default spawn values renders exactly
the expected block: the `TEAM_TEST = DarkRP.createJob("Tester", ...)`
assignment with `command = "tester"`, `vote = false`, `hasLicense = true`,
`candemote = false`, the constant `admin = 0`, and the spawn setter calls
in the fixed order health, maxHealth, armor, maxArmor, walkSpeed, runSpeed,
jumpPower with those literal values and lower-cased booleans. -/
theorem claim_C6 :
    create_job []
      ["TEAM_TEST", "Tester", "", "", "", "", "", "models/player/urban.mdl", "",
       "weapon_pistol", "", "", "2", "50", "y", "n", "n", "", "", "", "", "", "", ""]
    = .ok ("TEAM_TEST = DarkRP.createJob(\"Tester\", \x7b\n    color = Color(50, 50, 255, 255),\n    model = \"models/player/urban.mdl\",\n    description = [[A custom DarkRP job]],\n    weapons = \x7b\"weapon_pistol\"\x7d,\n    command = \"tester\",\n    max = 2,\n    salary = 50,\n    admin = 0,\n    vote = false,\n    hasLicense = true,\n    candemote = false,\n\n    PlayerSpawn = function(ply)\n        ply:SetHealth(100)\n        ply:SetMaxHealth(100)\n        ply:SetArmor(0)\n        ply:SetMaxArmor(0)\n        ply:SetWalkSpeed(200)\n        ply:SetRunSpeed(400)\n        ply:SetJumpPower(200)\n    end\n\x7d)",
        [⟨"TEAM_TEST", "Tester",
          "TEAM_TEST = DarkRP.createJob(\"Tester\", \x7b\n    color = Color(50, 50, 255, 255),\n    model = \"models/player/urban.mdl\",\n    description = [[A custom DarkRP job]],\n    weapons = \x7b\"weapon_pistol\"\x7d,\n    command = \"tester\",\n    max = 2,\n    salary = 50,\n    admin = 0,\n    vote = false,\n    hasLicense = true,\n    candemote = false,\n\n    PlayerSpawn = function(ply)\n        ply:SetHealth(100)\n        ply:SetMaxHealth(100)\n        ply:SetArmor(0)\n        ply:SetMaxArmor(0)\n        ply:SetWalkSpeed(200)\n        ply:SetRunSpeed(400)\n        ply:SetJumpPower(200)\n    end\n\x7d)"⟩],
        []) := rfl

theorem foldl_append_shift : ∀ (l : List String) (s : String),
    List.foldl (fun r t => r ++ t) s l = s ++ List.foldl (fun r t => r ++ t) "" l := by
  intro l
  induction l with
  | nil => intro s; simp
  | cons x xs ih =>
    intro s
    simp only [List.foldl_cons]
    rw [ih (s ++ x), ih ("" ++ x), String.empty_append, String.append_assoc]

theorem string_join_cons (x : String) (xs : List String) :
    String.join (x :: xs) = x ++ String.join xs := by
  simp only [String.join, List.foldl_cons]
  rw [foldl_append_shift xs ("" ++ x), String.empty_append]

theorem writeJobs_eq_join : ∀ (jobs : List Job),
    writeJobs jobs = String.join (jobs.map fun jb => jb.code ++ "\n\n") := by
  intro jobs
  induction jobs with
  | nil => rfl
  | cons jb js ih => simp only [writeJobs, List.map_cons, string_join_cons, ih]

theorem natStr_length_1 (n : Nat) (h : n < 10) : (natStr n).length = 1 := by
  have h2 : (natStr n).length = (natToDigits n).length := rfl
  rw [h2, natToDigits_small n h]
  rfl

theorem natStr_length_2 (n : Nat) (h1 : 10 ≤ n) (h2 : n < 100) : (natStr n).length = 2 := by
  have h3 : (natStr n).length = (natToDigits n).length := rfl
  rw [h3, natToDigits_step n h1, natToDigits_small (n / 10) (by omega)]
  rfl

theorem natStr_length_3 (n : Nat) (h1 : 100 ≤ n) (h2 : n < 1000) : (natStr n).length = 3 := by
  have h3 : (natStr n).length = (natToDigits n).length := rfl
  rw [h3, natToDigits_step n (by omega), natToDigits_step (n / 10) (by omega),
    natToDigits_small (n / 10 / 10) (by omega)]
  rfl

theorem natStr_length_4 (n : Nat) (h1 : 1000 ≤ n) (h2 : n < 10000) : (natStr n).length = 4 := by
  have h3 : (natStr n).length = (natToDigits n).length := rfl
  rw [h3, natToDigits_step n (by omega), natToDigits_step (n / 10) (by omega),
    natToDigits_step (n / 10 / 10) (by omega), natToDigits_small (n / 10 / 10 / 10) (by omega)]
  rfl

theorem pad2_length (n : Nat) (h : n < 100) : (pad2 n).length = 2 := by
  unfold pad2
  split
  · rename_i h10
    rw [String.length_append, natStr_length_1 n h10]
    rfl
  · rename_i h10
    exact natStr_length_2 n (by omega) h

theorem pad4_length (n : Nat) (h : n < 10000) : (pad4 n).length = 4 := by
  unfold pad4
  split
  · rename_i h10
    rw [String.length_append, natStr_length_1 n h10]
    rfl
  · split
    · rename_i hA hB
      rw [String.length_append, natStr_length_2 n (by omega) (by omega)]
      rfl
    · split
      · rename_i hA hB hC
        rw [String.length_append, natStr_length_3 n (by omega) (by omega)]
        rfl
      · rename_i hA hB hC
        exact natStr_length_4 n (by omega) h

theorem stampFile_length (t : DateTime) (hy : t.year < 10000) (hmo : t.month < 100)
    (hd : t.day < 100) (hh : t.hour < 100) (hmi : t.minute < 100) (hs : t.second < 100) :
    (stampFile t).length = 15 := by
  unfold stampFile
  simp only [String.length_append]
  rw [pad4_length _ hy, pad2_length _ hmo, pad2_length _ hd,
    pad2_length _ hh, pad2_length _ hmi, pad2_length _ hs]
  rfl

/-- Claim C7: saving a non-empty session writes a file whose name is
`darkrp_jobs_` followed by the `YYYYMMDD_HHMMSS` timestamp and `.lua`
(31 characters in all under the usual field bounds, the stamp contributing
15), and whose content is the fixed attribution line, the human-readable
`DD.MM.YYYY HH:MM:SS` creation line followed by an empty line, and then
each rendered job block with a blank-line separator, in session order. -/
theorem claim_C7 (jobs : List Job) (t1 t2 : DateTime) (h : jobs ≠ []) :
    (save_jobs jobs t1 t2).2.1
      = some ("darkrp_jobs_" ++ stampFile t1 ++ ".lua",
          "-- DarkRP Jobs generated with Python Script\n"
            ++ ("-- Created on: " ++ stampHuman t2 ++ "\n\n")
            ++ String.join (jobs.map fun jb => jb.code ++ "\n\n"))
  ∧ (t1.year < 10000 → t1.month < 100 → t1.day < 100 → t1.hour < 100 → t1.minute < 100 →
      t1.second < 100 → ("darkrp_jobs_" ++ stampFile t1 ++ ".lua").length = 31) := by
  constructor
  · simp only [save_jobs, if_neg h]
    rw [writeJobs_eq_join]
  · intro hy hmo hd hh hmi hs
    rw [String.length_append, String.length_append, stampFile_length t1 hy hmo hd hh hmi hs]
    rfl

/-- Witness for claim C7 at a one-job session and a concrete timestamp. -/
theorem claim_C7_witness :
    (save_jobs [⟨"T", "J", "C"⟩] ⟨2026, 10, 12, 3, 4, 5⟩ ⟨2026, 10, 12, 3, 4, 6⟩).2.1
      = some ("darkrp_jobs_" ++ stampFile ⟨2026, 10, 12, 3, 4, 5⟩ ++ ".lua",
          "-- DarkRP Jobs generated with Python Script\n"
            ++ ("-- Created on: " ++ stampHuman ⟨2026, 10, 12, 3, 4, 6⟩ ++ "\n\n")
            ++ String.join (([⟨"T", "J", "C"⟩] : List Job).map fun jb => jb.code ++ "\n\n"))
  ∧ ("darkrp_jobs_" ++ stampFile ⟨2026, 10, 12, 3, 4, 5⟩ ++ ".lua").length = 31 := by
  have h := claim_C7 [⟨"T", "J", "C"⟩] ⟨2026, 10, 12, 3, 4, 5⟩ ⟨2026, 10, 12, 3, 4, 6⟩ (by simp)
  exact ⟨h.1, h.2 (by decide) (by decide) (by decide) (by decide) (by decide) (by decide)⟩

/-- Claim C8: saving an empty session performs no file write (no filename
or content is produced), prints the notice, returns normally, and leaves
the session empty; it is a no-op rather than an error. -/
theorem claim_C8 (t1 t2 : DateTime) :
    save_jobs [] t1 t2 = ([], none, "No jobs to save!") := rfl

/-- Claim C9: saving leaves the session list unchanged, and for a fixed
non-empty session there is a single body such that every save produces a
file with exactly that body after the header, so two saves differ only in
the header timestamp and the filename. -/
theorem claim_C9 (jobs : List Job) (t1 t2 : DateTime) :
    (save_jobs jobs t1 t2).1 = jobs
  ∧ (jobs ≠ [] → ∃ body, ∀ (ta tb : DateTime),
      (save_jobs jobs ta tb).2.1
        = some ("darkrp_jobs_" ++ stampFile ta ++ ".lua",
            ("-- DarkRP Jobs generated with Python Script\n"
              ++ ("-- Created on: " ++ stampHuman tb ++ "\n\n")) ++ body)) := by
  constructor
  · unfold save_jobs
    split <;> rfl
  · intro h
    refine ⟨writeJobs jobs, fun ta tb => ?_⟩
    simp only [save_jobs, if_neg h]

/-- Witness for claim C9 at a one-job session. -/
theorem claim_C9_witness :
    (save_jobs [⟨"T", "J", "C"⟩] ⟨2026, 1, 2, 3, 4, 5⟩ ⟨2026, 1, 2, 3, 4, 5⟩).1 = [⟨"T", "J", "C"⟩]
  ∧ ∃ body, ∀ (ta tb : DateTime),
      (save_jobs [⟨"T", "J", "C"⟩] ta tb).2.1
        = some ("darkrp_jobs_" ++ stampFile ta ++ ".lua",
            ("-- DarkRP Jobs generated with Python Script\n"
              ++ ("-- Created on: " ++ stampHuman tb ++ "\n\n")) ++ body) := by
  have h := claim_C9 [⟨"T", "J", "C"⟩] ⟨2026, 1, 2, 3, 4, 5⟩ ⟨2026, 1, 2, 3, 4, 5⟩
  exact ⟨h.1, h.2 (by simp)⟩

/-- Claim C10: every rendered job block contains the literal field
assignment `admin = 0`, for all inputs; it is a fixed part of the template
and not collected from the user. -/
theorem claim_C10 (team_name job_name color models description weapons command : String)
    (max_players salary : Int) (vote_required has_license can_demote : Bool)
    (s : SpawnSettings) :
    ∃ pre post,
      job_template team_name job_name color models description weapons command
          max_players salary vote_required has_license can_demote s
        = pre ++ "admin = 0" ++ post := by
  refine ⟨team_name ++ " = DarkRP.createJob(\"" ++ job_name ++ "\", \x7b\n    color = " ++ color
    ++ ",\n    model = " ++ models
    ++ ",\n    description = [[" ++ description
    ++ "]],\n    weapons = " ++ weapons
    ++ ",\n    command = \"" ++ command
    ++ "\",\n    max = " ++ pyStr max_players
    ++ ",\n    salary = " ++ pyStr salary
    ++ ",\n    ",
    ",\n    vote = " ++ pyBool vote_required
    ++ ",\n    hasLicense = " ++ pyBool has_license
    ++ ",\n    candemote = " ++ pyBool can_demote
    ++ ",\n\n    PlayerSpawn = function(ply)\n        ply:SetHealth(" ++ pyStr s.health
    ++ ")\n        ply:SetMaxHealth(" ++ pyStr s.max_health
    ++ ")\n        ply:SetArmor(" ++ pyStr s.armor
    ++ ")\n        ply:SetMaxArmor(" ++ pyStr s.max_armor
    ++ ")\n        ply:SetWalkSpeed(" ++ pyStr s.walk_speed
    ++ ")\n        ply:SetRunSpeed(" ++ pyStr s.run_speed
    ++ ")\n        ply:SetJumpPower(" ++ pyStr s.jump_power
    ++ ")\n    end\n\x7d)", ?_⟩
  apply String.ext
  simp only [job_template, String.data_append, List.append_assoc]
  rfl
